import Mathlib

/-!
Verification of the stock-data application core (src/app.py).

The Python source is shallowly embedded: pure helpers become Lean
functions, Python exceptions become an explicit error type threaded
through `Except`, `datetime` values become integers (seconds on an
abstract clock axis, computed with the standard civil-calendar day
count), and `timedelta` values become integer second counts.  The
pandas DataFrame produced by the fetchers is modelled as a `List Bar`,
and the single DataFrame operations the source uses (`sort_values`,
boolean-mask filtering, `empty`) are modelled directly on lists.
-/

namespace StockData

/-- Python exceptions raised by src/app.py.  The source raises
`RuntimeError` with four distinct message prefixes for the four
provider-failure sites (app.py:64-72); the model gives each raise site
its own constructor carrying the interpolated payload, and
`isRuntimeError` groups them back into the `RuntimeError` class that
the adapters catch. -/
inductive PyExc where
  | valueError (msg : String)
  | rateLimited (msg : String)
  | providerInfo (msg : String)
  | providerErr (msg : String)
  | unexpectedResponse (msg : String)
  | keyError (key : String)
  | typeError (msg : String)
  deriving DecidableEq

/-- The constructors that model Python `RuntimeError` raises (app.py:65,67,69,72). -/
def isRuntimeError : PyExc → Bool
  | PyExc.rateLimited _ => true
  | PyExc.providerInfo _ => true
  | PyExc.providerErr _ => true
  | PyExc.unexpectedResponse _ => true
  | _ => false

/-- The constructor that models Python `ValueError` raises. -/
def isValueError : PyExc → Bool
  | PyExc.valueError _ => true
  | _ => false

/-- Both adapters catch exactly `(ValueError, RuntimeError)`
(app.py:205 and app.py:273). -/
def adapterCatches (e : PyExc) : Bool :=
  isValueError e || isRuntimeError e

/-! ### Python string and integer helpers -/

/-- ASCII whitespace stripped by `str.strip` and by `int()`. -/
def pyIsSpace (c : Char) : Bool :=
  c == ' ' || c == '\t' || c == '\n' || c == '\r' || c == '\x0b' || c == '\x0c'

/-- Model of `s.strip().lower()` (app.py:17) on the character list of `s`,
for the ASCII strings this application handles. -/
def pyStripLower (cs : List Char) : List Char :=
  (((cs.dropWhile pyIsSpace).reverse.dropWhile pyIsSpace).reverse).map Char.toLower

/-- Value of a decimal digit character. -/
def digitVal (c : Char) : Nat := c.toNat - 48

/-- Digit run of a Python integer literal after its first digit: decimal
digits with single underscores allowed between digits. -/
def pyDigitsRest : List Char → Nat → Option Nat
  | [], acc => some acc
  | ['_'], _ => none
  | '_' :: c :: rest, acc =>
    if c.isDigit then pyDigitsRest rest (acc * 10 + digitVal c) else none
  | c :: rest, acc =>
    if c.isDigit then pyDigitsRest rest (acc * 10 + digitVal c) else none

/-- Nonempty digit run starting with a digit. -/
def pyIntDigits (cs : List Char) : Option Nat :=
  match cs with
  | [] => none
  | c :: rest => if c.isDigit then pyDigitsRest rest (digitVal c) else none

/-- Model of Python `int(s)`: optional surrounding ASCII whitespace, an
optional sign, then a nonempty digit run (underscore separators allowed).
Returns `none` where `int()` raises `ValueError`. -/
def pyInt (cs : List Char) : Option Int :=
  let cs := (cs.dropWhile pyIsSpace)
  let cs := ((cs.reverse.dropWhile pyIsSpace).reverse)
  match cs with
  | '+' :: rest => (pyIntDigits rest).map (fun n => (n : Int))
  | '-' :: rest => (pyIntDigits rest).map (fun n => -(n : Int))
  | rest => (pyIntDigits rest).map (fun n => (n : Int))

/-! ### Period Parser (app.py:13-28)

A `timedelta` is modelled by its total length in seconds (an integer:
`parse_period` only ever constructs whole minutes, hours, days or
weeks).  The unit factors are the second counts of one minute, hour,
day, week, and 365-day year, exactly as `timedelta` would compute them. -/

/-- Second count of each recognized unit suffix. -/
def unitFactor : Char → Option Int
  | 'm' => some 60
  | 'h' => some 3600
  | 'd' => some 86400
  | 'w' => some 604800
  | 'y' => some (365 * 86400)
  | _ => none

/-- One suffix branch of `parse_period`: drop the unit character, run
`int()` on the remainder, scale by the unit factor.  A failed `int()`
is the `ValueError` that `int(s[:-1])` raises. -/
def unitCase (cs : List Char) (factor : Int) : Except PyExc Int :=
  match pyInt cs.dropLast with
  | some n => Except.ok (n * factor)
  | none => Except.error (PyExc.valueError "invalid literal for int with base 10")

/-- Body of `parse_period` after `strip().lower()`: the five
`endswith` checks in source order (app.py:18-27), each single-character
suffix check modelled by `getLast?`, with the final
`raise ValueError(f"Unsupported period: ...")` fallback (app.py:28). -/
def parse_period_core (cs : List Char) : Except PyExc Int :=
  if cs.getLast? = some 'm' then unitCase cs 60
  else if cs.getLast? = some 'h' then unitCase cs 3600
  else if cs.getLast? = some 'd' then unitCase cs 86400
  else if cs.getLast? = some 'w' then unitCase cs 604800
  else if cs.getLast? = some 'y' then unitCase cs (365 * 86400)
  else Except.error (PyExc.valueError ("Unsupported period: " ++ String.mk cs))

/-- Model of `parse_period` (app.py:13-28). -/
def parse_period (s : String) : Except PyExc Int :=
  parse_period_core (pyStripLower s.data)

/-- Decides whether `s.strip().lower()` leaves `s` unchanged, i.e. `s`
is already trimmed and lowercased. -/
def isTrimmedLower (s : String) : Bool :=
  pyStripLower s.data == s.data

/-! ### Interval Selector (app.py:30-45)

`period.total_seconds() / 60.0` is modelled as exact rational division.
For every second count below 2^53 the binary-float division and the
comparisons against the ladder constants agree with the exact rational
value, and above that both computations are far past every threshold,
so the selected interval agrees everywhere. -/

/-- Model of `total_mins = period.total_seconds() / 60.0` (app.py:34),
the exact rational `d / 60` (written with `Rat.divInt`, which equals
`(d : ℚ) / 60`, so that the kernel can evaluate it). -/
def total_mins (d : Int) : ℚ := Rat.divInt d 60

/-- Model of `choose_interval` (app.py:30-45), thresholds written as in
the source (`2 * 24 * 60` and so on). -/
def choose_interval (d : Int) : String :=
  if total_mins d ≤ 120 then "1min"
  else if total_mins d ≤ 2 * 24 * 60 then "5min"
  else if total_mins d ≤ 7 * 24 * 60 then "15min"
  else if total_mins d ≤ 14 * 24 * 60 then "30min"
  else if total_mins d ≤ 30 * 24 * 60 then "60min"
  else "daily"

/-- The Interval Selector ladder exactly as the specification words it:
first satisfied threshold wins, thresholds 120, 2880, 10080, 20160,
43200 total minutes, daily otherwise.  Stated separately from
`choose_interval` so that agreement of the two is a theorem. -/
def spec_interval_ladder (d : Int) : String :=
  if total_mins d ≤ 120 then "1min"
  else if total_mins d ≤ 2880 then "5min"
  else if total_mins d ≤ 10080 then "15min"
  else if total_mins d ≤ 20160 then "30min"
  else if total_mins d ≤ 43200 then "60min"
  else "daily"

/-! ### Calendar arithmetic and the Timestamp Normalizer -/

/-- Gregorian leap-year test. -/
def isLeap (y : Nat) : Bool :=
  (y % 4 == 0 && y % 100 != 0) || y % 400 == 0

/-- Number of days in a month, as `datetime.date` validates it. -/
def daysInMonth (y m : Nat) : Nat :=
  if m == 2 then (if isLeap y then 29 else 28)
  else if m == 4 || m == 6 || m == 9 || m == 11 then 30
  else 31

/-- Day count of a civil date from the epoch 1970-01-01 (the standard
days-from-civil algorithm; all intermediate quantities are non-negative
for the four-digit years this parser accepts). -/
def daysFromCivil (y m d : Int) : Int :=
  let y2 := if m ≤ 2 then y - 1 else y
  let era := (if 0 ≤ y2 then y2 else y2 - 399) / 400
  let yoe := y2 - era * 400
  let mp := (m + 9) % 12
  let doy := (153 * mp + 2) / 5 + d - 1
  let doe := yoe * 365 + yoe / 4 - yoe / 100 + doy
  era * 146097 + doe - 719468

/-- Second count of a naive datetime on the abstract clock axis. Two
valid field tuples map to the same count only if they are equal, so
equality of counts models equality of naive `datetime` values. -/
def toEpochSecs (y m d hh mi ss : Int) : Int :=
  daysFromCivil y m d * 86400 + hh * 3600 + mi * 60 + ss

/-- Result of `dateutil.parser.isoparse`: a naive clock value, or an
offset-aware value carrying the literally written clock value together
with its UTC offset in seconds. -/
inductive TS where
  | naive (t : Int)
  | aware (t : Int) (off : Int)
  deriving DecidableEq

/-- Two decimal digits. -/
def parse2 (a b : Char) : Option Nat :=
  if a.isDigit && b.isDigit then some (digitVal a * 10 + digitVal b) else none

/-- Four decimal digits. -/
def parse4 (a b c d : Char) : Option Nat :=
  if a.isDigit && b.isDigit && c.isDigit && d.isDigit then
    some (((digitVal a * 10 + digitVal b) * 10 + digitVal c) * 10 + digitVal d)
  else none

/-- Trailing timezone designator: absent (naive), `Z`, or a signed
`±HH:MM` offset; returns the offset in seconds when one is present. -/
def parseTZ (cs : List Char) : Option (Option Int) :=
  match cs with
  | [] => some none
  | ['Z'] => some (some 0)
  | [sgn, o1, o2, ':', o3, o4] =>
    if sgn == '+' || sgn == '-' then
      match parse2 o1 o2, parse2 o3 o4 with
      | some oh, some om =>
        if oh ≤ 23 && om ≤ 59 then
          some (some (if sgn == '+' then ((oh * 3600 + om * 60 : Nat) : Int)
                      else -((oh * 3600 + om * 60 : Nat) : Int)))
        else none
      | _, _ => none
    else none
  | _ => none

/-- `HH:MM:SS` clock part followed by an optional timezone designator. -/
def parseHMS (cs : List Char) : Option (Nat × Nat × Nat × Option Int) :=
  match cs with
  | h1 :: h2 :: ':' :: m1 :: m2 :: ':' :: s1 :: s2 :: rest =>
    match parse2 h1 h2, parse2 m1 m2, parse2 s1 s2, parseTZ rest with
    | some hh, some mi, some ss, some tz =>
      if hh ≤ 23 && mi ≤ 59 && ss ≤ 59 then some (hh, mi, ss, tz) else none
    | _, _, _, _ => none
  | _ => none

/-- Model of `dateutil.parser.isoparse` (app.py:80, app.py:129) on the
ISO-8601 subset the provider emits: `YYYY-MM-DD`, optionally followed
by a one-character separator (space or `T`), `HH:MM:SS`, and an
optional `Z` or `±HH:MM` offset designator.  Field ranges are validated
as the `datetime` constructor validates them; `none` models the
`ValueError` that `isoparse` raises on unparseable input. -/
def isoparse (s : String) : Option TS :=
  match s.data with
  | [y1, y2, y3, y4, '-', m1, m2, '-', d1, d2] =>
    match parse4 y1 y2 y3 y4, parse2 m1 m2, parse2 d1 d2 with
    | some y, some mo, some dd =>
      if 1 ≤ mo && mo ≤ 12 && 1 ≤ dd && dd ≤ daysInMonth y mo then
        some (TS.naive (toEpochSecs y mo dd 0 0 0))
      else none
    | _, _, _ => none
  | y1 :: y2 :: y3 :: y4 :: '-' :: m1 :: m2 :: '-' :: d1 :: d2 :: sep :: rest =>
    if sep == ' ' || sep == 'T' then
      match parse4 y1 y2 y3 y4, parse2 m1 m2, parse2 d1 d2, parseHMS rest with
      | some y, some mo, some dd, some (hh, mi, ss, tz) =>
        if 1 ≤ mo && mo ≤ 12 && 1 ≤ dd && dd ≤ daysInMonth y mo then
          match tz with
          | none => some (TS.naive (toEpochSecs y mo dd hh mi ss))
          | some off => some (TS.aware (toEpochSecs y mo dd hh mi ss) off)
        else none
      | _, _, _, _ => none
    else none
  | _ => none

/-- The intraday Timestamp Normalizer (app.py:81-87): a naive parse
result is kept literally; an offset-aware result is converted to UTC
and its offset marker dropped.  `dt.astimezone(timezone.utc)` of an
aware datetime with written clock value `t` and UTC offset `off`
has clock value `t - off`, and `replace(tzinfo=None)` keeps exactly
that clock value. -/
def normalize_intraday : TS → Int
  | TS.naive t => t
  | TS.aware t off => t - off

/-! ### Python float parsing for the OHLCV fields -/

/-- Numeric value of a digit list. -/
def natOfDigits (cs : List Char) : Nat :=
  cs.foldl (fun a c => a * 10 + digitVal c) 0

/-- Unsigned decimal literal `digits[.digits]` with at least one digit;
the value `ip.fp` is the exact rational with denominator `10 ^ |fp|`
(built with `mkRat` so that the kernel can evaluate it). -/
def pyFloatMag (cs : List Char) : Option ℚ :=
  let ip := cs.takeWhile Char.isDigit
  match cs.dropWhile Char.isDigit with
  | [] => if ip.isEmpty then none else some (mkRat (natOfDigits ip) 1)
  | '.' :: rest =>
    let fp := rest.takeWhile Char.isDigit
    if (rest.dropWhile Char.isDigit).isEmpty && !(ip.isEmpty && fp.isEmpty) then
      some (mkRat (natOfDigits ip * 10 ^ fp.length + natOfDigits fp) (10 ^ fp.length))
    else none
  | _ => none

/-- Model of Python `float(s)` on the plain decimal literals the
provider emits for OHLCV fields (optional sign, digits, optional
fractional part); binary rounding is irrelevant here because no claim
inspects a price value.  `none` models the `ValueError` raised on
unparseable input. -/
def pyFloat (s : String) : Option ℚ :=
  match s.data with
  | '+' :: rest => pyFloatMag rest
  | '-' :: rest => (pyFloatMag rest).map (fun q => -q)
  | rest => pyFloatMag rest

/-- Model of `int(q)` on a float value: truncation toward zero
(app.py:94 applies it to the parsed volume), i.e. T-division of the
numerator by the denominator. -/
def pyTrunc (q : ℚ) : Int :=
  Int.tdiv q.num q.den

/-! ### Provider response model and the Data Fetcher -/

/-- One provider OHLCV object, fields `1. open` through `5. volume`,
all arriving as strings. -/
structure Ohlc where
  op : String
  hi : String
  lo : String
  cl : String
  vol : String
  deriving DecidableEq

/-- A top-level JSON value in the provider response: either a scalar
notice string (the `Note` / `Information` / `Error Message` payloads)
or a series object mapping timestamp strings to OHLCV objects.  The
top level itself is an insertion-ordered association list with the
unique keys of a Python dict. -/
inductive JsonField where
  | text (s : String)
  | series (entries : List (String × Ohlc))
  deriving DecidableEq

/-- Membership test `k in data` on the response dict. -/
def hasKey (d : List (String × JsonField)) (k : String) : Bool :=
  d.any (fun p => p.1 == k)

/-- Lookup `data[k]` on the response dict. -/
def lookupField (d : List (String × JsonField)) (k : String) : Option JsonField :=
  (d.find? (fun p => p.1 == k)).map Prod.snd

/-- The string payload interpolated into an error message, `""` when
the key is missing or maps to a series object. -/
def textOf (d : List (String × JsonField)) (k : String) : String :=
  match lookupField d k with
  | some (JsonField.text s) => s
  | _ => ""

/-- The dynamic series key marker. -/
def seriesMarker : String := "Time Series"

/-- Whether a top-level key starts with `"Time Series"`. -/
def startsWithMarker (k : String) : Bool :=
  seriesMarker.data.isPrefixOf k.data

/-- Model of `next((k for k in data.keys() if k.startswith("Time Series")), None)`
(app.py:70, app.py:121): the first key, in dict insertion order,
carrying the series marker. -/
def findSeriesKey (d : List (String × JsonField)) : Option String :=
  (d.find? (fun p => startsWithMarker p.1)).map Prod.fst

/-- A bar row as the fetchers build it (app.py:88-95): normalized
naive time and the parsed OHLCV fields. -/
structure Bar where
  time : Int
  op : ℚ
  hi : ℚ
  lo : ℚ
  cl : ℚ
  vol : Int
  deriving DecidableEq

/-- Comparison on the `time` column. -/
def barLe (a b : Bar) : Prop := a.time ≤ b.time

instance : DecidableRel barLe :=
  fun a b => inferInstanceAs (Decidable (a.time ≤ b.time))

instance : IsTotal Bar barLe := ⟨fun a b => Int.le_total a.time b.time⟩

instance : IsTrans Bar barLe := ⟨fun _ _ _ h1 h2 => le_trans h1 h2⟩

/-- `float()` conversion of one field, raising `ValueError` on failure. -/
def pyFloatE (s : String) : Except PyExc ℚ :=
  match pyFloat s with
  | some q => Except.ok q
  | none => Except.error (PyExc.valueError "could not convert string to float")

/-- One record of the intraday loop body (app.py:77-95): parse the
timestamp, normalize it, parse the four prices and the volume. -/
def buildRow (ts_str : String) (ohlc : Ohlc) : Except PyExc Bar := do
  let t ← match isoparse ts_str with
    | some dt => Except.ok (normalize_intraday dt)
    | none => Except.error (PyExc.valueError "Invalid isoformat string")
  let o ← pyFloatE ohlc.op
  let h ← pyFloatE ohlc.hi
  let l ← pyFloatE ohlc.lo
  let c ← pyFloatE ohlc.cl
  let v ← pyFloatE ohlc.vol
  Except.ok { time := t, op := o, hi := h, lo := l, cl := c, vol := pyTrunc v }

/-- The records list of the intraday fetcher, built in dict iteration
order by the `records.append` loop; the first exception aborts the
loop, as in Python. -/
def buildRows : List (String × Ohlc) → Except PyExc (List Bar)
  | [] => Except.ok []
  | p :: rest => do
    let b ← buildRow p.1 p.2
    let bs ← buildRows rest
    Except.ok (b :: bs)

/-- One record of the daily loop body (app.py:128-137): `isoparse`
without the normalization branch.  Daily provider keys are date-only
and parse naive; an offset-aware daily timestamp would be stored as-is
by the source and only fail later when compared against a naive value,
which the model surfaces as the same `TypeError` at this point. -/
def buildRowDaily (ts_str : String) (ohlc : Ohlc) : Except PyExc Bar := do
  let t ← match isoparse ts_str with
    | some (TS.naive t) => Except.ok t
    | some (TS.aware _ _) => Except.error (PyExc.typeError "aware and naive datetimes")
    | none => Except.error (PyExc.valueError "Invalid isoformat string")
  let o ← pyFloatE ohlc.op
  let h ← pyFloatE ohlc.hi
  let l ← pyFloatE ohlc.lo
  let c ← pyFloatE ohlc.cl
  let v ← pyFloatE ohlc.vol
  Except.ok { time := t, op := o, hi := h, lo := l, cl := c, vol := pyTrunc v }

/-- The records list of the daily fetcher. -/
def buildRowsDaily : List (String × Ohlc) → Except PyExc (List Bar)
  | [] => Except.ok []
  | p :: rest => do
    let b ← buildRowDaily p.1 p.2
    let bs ← buildRowsDaily rest
    Except.ok (b :: bs)

/-- Model of `pd.DataFrame.from_records(records).sort_values("time")`
(app.py:96, app.py:138).  `from_records` of an empty list yields a
frame with no columns at all, so `sort_values("time")` raises
`KeyError: time`; on a nonempty list the frame is sorted ascending by
the `time` column. -/
def sortValuesTime (rows : List Bar) : Except PyExc (List Bar) :=
  match rows with
  | [] => Except.error (PyExc.keyError "time")
  | _ => Except.ok (List.insertionSort barLe rows)

/-- Model of `fetch_intraday` (app.py:47-97) from the decoded JSON
response on: the HTTP call and `raise_for_status` succeeded with the
given body.  The query-parameter construction (app.py:51-58) is
modelled separately by `intradayParams`. -/
def fetch_intraday (d : List (String × JsonField)) : Except PyExc (List Bar) :=
  if hasKey d "Note" then
    Except.error (PyExc.rateLimited ("Alpha Vantage rate limit: " ++ textOf d "Note"))
  else if hasKey d "Information" then
    Except.error (PyExc.providerInfo ("Alpha Vantage info: " ++ textOf d "Information"))
  else if hasKey d "Error Message" then
    Except.error (PyExc.providerErr ("Alpha Vantage error: " ++ textOf d "Error Message"))
  else
    match findSeriesKey d with
    | none => Except.error (PyExc.unexpectedResponse "Unexpected response")
    | some key =>
      match lookupField d key with
      | some (JsonField.series ts) => do
        let rows ← buildRows ts
        sortValuesTime rows
      | _ => Except.error (PyExc.typeError "object has no attribute items")

/-- Model of `fetch_daily` (app.py:99-139), identical response handling
with the daily row builder. -/
def fetch_daily (d : List (String × JsonField)) : Except PyExc (List Bar) :=
  if hasKey d "Note" then
    Except.error (PyExc.rateLimited ("Alpha Vantage rate limit: " ++ textOf d "Note"))
  else if hasKey d "Information" then
    Except.error (PyExc.providerInfo ("Alpha Vantage info: " ++ textOf d "Information"))
  else if hasKey d "Error Message" then
    Except.error (PyExc.providerErr ("Alpha Vantage error: " ++ textOf d "Error Message"))
  else
    match findSeriesKey d with
    | none => Except.error (PyExc.unexpectedResponse "Unexpected response")
    | some key =>
      match lookupField d key with
      | some (JsonField.series ts) => do
        let rows ← buildRowsDaily ts
        sortValuesTime rows
      | _ => Except.error (PyExc.typeError "object has no attribute items")

/-! ### Request window and pipeline -/

/-- Model of `lookback > timedelta(days=100)` (app.py:157). -/
def use_full_output (lookback : Int) : Bool :=
  decide (100 * 86400 < lookback)

/-- The query-parameter dict of the intraday request (app.py:51-58),
including the `outputsize` value derived from the full flag. -/
def intradayParams (symbol interval apiKey : String) (full : Bool) :
    List (String × String) :=
  [("function", "TIME_SERIES_INTRADAY"),
   ("symbol", symbol),
   ("interval", interval),
   ("apikey", apiKey),
   ("datatype", "json"),
   ("outputsize", if full then "full" else "compact")]

/-- Model of `df[df["time"] >= cutoff]` (app.py:175): the boolean-mask
filter keeps, in order, exactly the rows whose time is at least the
cutoff. -/
def window_filter (cutoff : Int) (rows : List Bar) : List Bar :=
  rows.filter (fun b => decide (cutoff ≤ b.time))

/-- Model of `get_stock_data` (app.py:141-179).  The environment key is
an explicit `Option String` argument (`""` and absence are both falsy
for `if not api_key`); the provider response body stands in for the
network call; `now` is the `datetime.now()` value.  Exceptions from
`parse_period` and the fetchers propagate uncaught, as in the source. -/
def get_stock_data (apiKey : Option String) (periodStr : String)
    (resp : List (String × JsonField)) (now : Int) :
    Except PyExc (List Bar × String) :=
  if apiKey.getD "" = "" then
    Except.error (PyExc.valueError
      "API key not configured. Set ALPHAVANTAGE_API_KEY environment variable.")
  else
    match parse_period periodStr with
    | Except.error e => Except.error e
    | Except.ok lookback =>
      let interval := choose_interval lookback
      match (if interval = "daily" then fetch_daily resp else fetch_intraday resp) with
      | Except.error e => Except.error e
      | Except.ok df =>
        Except.ok (window_filter (now - lookback) df, interval)

/-! ### CLI adapter -/

/-- Outcome of one CLI run: a `sys.exit` code, or termination by an
exception that escaped the `except (ValueError, RuntimeError)` handler. -/
inductive CliExit where
  | code (n : Nat)
  | uncaught (e : PyExc)
  deriving DecidableEq

/-- Model of `main_cli` (app.py:253-309).  `argv` includes the script
name; `outcome` is the result of the `get_stock_data` call.  A wrong
argument count prints usage and exits 1 (app.py:259); a caught
`ValueError` or `RuntimeError` exits 1 (app.py:277); an empty window
exits 0 (app.py:285); printing and plotting then falling off the end
exits 0. -/
def main_cli (argv : List String) (outcome : Except PyExc (List Bar × String)) :
    CliExit :=
  if argv.length ≠ 3 then CliExit.code 1
  else
    match outcome with
    | Except.error e => if adapterCatches e then CliExit.code 1 else CliExit.uncaught e
    | Except.ok _ => CliExit.code 0

/-! ### Concrete payloads used by scenario checks -/

/-- A well-formed OHLCV object. -/
def demoOhlc : Ohlc :=
  { op := "1.0", hi := "2.0", lo := "0.5", cl := "1.5", vol := "100" }

/-- A second well-formed OHLCV object. -/
def demoOhlc2 : Ohlc :=
  { op := "1.5", hi := "2.5", lo := "1.0", cl := "2.0", vol := "250" }

/-- Decides that one series entry is fully parseable: timestamp and all
five numeric fields. -/
def rowParses (p : String × Ohlc) : Bool :=
  (isoparse p.1).isSome && (pyFloat p.2.op).isSome && (pyFloat p.2.hi).isSome
    && (pyFloat p.2.lo).isSome && (pyFloat p.2.cl).isSome && (pyFloat p.2.vol).isSome

/-- Normalized time of a series entry key (defined as 0 on unparseable
keys, which every use excludes by hypothesis). -/
def normTime (s : String) : Int :=
  match isoparse s with
  | some dt => normalize_intraday dt
  | none => 0

/-- Response whose two series keys are distinct strings but normalize
to the same naive time: `16:59:00+01:00` converts to `15:59:00` UTC,
which collides with the bare key `15:59:00`. -/
def c7Resp : List (String × JsonField) :=
  [("Time Series (1min)", JsonField.series
      [("2025-10-07 16:59:00+01:00", demoOhlc),
       ("2025-10-07 15:59:00", demoOhlc2)])]

/-- Response with a single intraday bar at `2025-10-07 15:59:00`. -/
def c5Resp : List (String × JsonField) :=
  [("Time Series (1min)", JsonField.series
      [("2025-10-07 15:59:00", demoOhlc)])]

/-- A wall-clock `now` strictly before the single bar of `c5Resp`. -/
def c5Now : Int := toEpochSecs 2025 10 7 12 0 0

/-- A wall-clock `now` shortly after the single bar of `c5Resp`. -/
def c5WitNow : Int := toEpochSecs 2025 10 7 16 30 0

/-- Response whose series object is present but empty. -/
def emptySeriesResp : List (String × JsonField) :=
  [("Meta Data", JsonField.text "meta"),
   ("Time Series (5min)", JsonField.series [])]

/-- A concrete bar before the epoch cutoff used in witnesses. -/
def demoBarA : Bar :=
  { time := -5, op := mkRat 1 1, hi := mkRat 1 1, lo := mkRat 1 1,
    cl := mkRat 1 1, vol := 1 }

/-- A concrete bar after the epoch cutoff used in witnesses. -/
def demoBarB : Bar :=
  { time := 3, op := mkRat 1 1, hi := mkRat 2 1, lo := mkRat 1 1,
    cl := mkRat 2 1, vol := 2 }

/-- The bar that `fetch_intraday` builds from the single entry of
`c5Resp` (timestamp `2025-10-07 15:59:00`, fields of `demoOhlc`). -/
def c5Bar : Bar :=
  { time := toEpochSecs 2025 10 7 15 59 0, op := mkRat 10 10, hi := mkRat 20 10,
    lo := mkRat 5 10, cl := mkRat 15 10, vol := 100 }

/-- The bar built from the offset-aware entry of `c7Resp`. -/
def c7BarAware : Bar :=
  { time := toEpochSecs 2025 10 7 15 59 0, op := mkRat 10 10, hi := mkRat 20 10,
    lo := mkRat 5 10, cl := mkRat 15 10, vol := 100 }

/-- The bar built from the bare entry of `c7Resp`; its normalized time
coincides with the offset-aware bar of the same payload. -/
def c7BarNaive : Bar :=
  { time := toEpochSecs 2025 10 7 15 59 0, op := mkRat 15 10, hi := mkRat 25 10,
    lo := mkRat 10 10, cl := mkRat 20 10, vol := 250 }

/-- A two-entry series whose keys normalize to distinct times. -/
def c7GoodSeries : List (String × Ohlc) :=
  [("2025-10-07 15:58:00", demoOhlc), ("2025-10-07 15:59:00", demoOhlc2)]

/-- Well-formed response wrapping `c7GoodSeries`. -/
def c7GoodResp : List (String × JsonField) :=
  [("Time Series (1min)", JsonField.series c7GoodSeries)]

/-- Response carrying the provider throttling notice. -/
def noteResp : List (String × JsonField) :=
  [("Note", JsonField.text "please slow down")]

/-- Response carrying the provider informational notice. -/
def infoResp : List (String × JsonField) :=
  [("Information", JsonField.text "premium endpoint")]

/-- Response carrying the provider error payload. -/
def errResp : List (String × JsonField) :=
  [("Error Message", JsonField.text "Invalid API call")]

/-- Response with no special key and no series key. -/
def metaOnlyResp : List (String × JsonField) :=
  [("Meta Data", JsonField.text "meta")]

deriving instance DecidableEq for Except

/-! ## Theorems -/

/-- C1 (confirmed): the intraday Timestamp Normalizer converts every
offset-aware provider timestamp to naive UTC (written clock value minus
UTC offset, offset marker dropped) and keeps every bare timestamp as
its literal clock value; a `+00:00` timestamp keeps its clock value and
only loses the marker, and `2025-10-07 15:59:00` is kept as-is.  The
final conjunct shows a genuine conversion: `16:59:00+01:00` normalizes
to the `15:59:00` clock value. -/
theorem c1_timestamp_normalizer :
    (∀ (s : String) (c off : Int), isoparse s = some (TS.aware c off) →
        normalize_intraday (TS.aware c off) = c - off)
  ∧ (∀ (s : String) (c : Int), isoparse s = some (TS.naive c) →
        normalize_intraday (TS.naive c) = c)
  ∧ isoparse "2025-10-07 15:59:00+00:00"
      = some (TS.aware (toEpochSecs 2025 10 7 15 59 0) 0)
  ∧ normalize_intraday (TS.aware (toEpochSecs 2025 10 7 15 59 0) 0)
      = toEpochSecs 2025 10 7 15 59 0
  ∧ isoparse "2025-10-07 15:59:00" = some (TS.naive (toEpochSecs 2025 10 7 15 59 0))
  ∧ isoparse "2025-10-07 16:59:00+01:00"
      = some (TS.aware (toEpochSecs 2025 10 7 16 59 0) 3600)
  ∧ normalize_intraday (TS.aware (toEpochSecs 2025 10 7 16 59 0) 3600)
      = toEpochSecs 2025 10 7 15 59 0 := by
  refine ⟨fun _ _ _ _ => rfl, fun _ _ _ => rfl, by decide, by decide, by decide,
    by decide, by decide⟩

/-- Witness for C1: the universal aware-case clause applied to the
concrete string `2025-10-07 16:59:00+01:00`. -/
theorem c1_timestamp_normalizer_witness :
    normalize_intraday (TS.aware (toEpochSecs 2025 10 7 16 59 0) 3600)
      = toEpochSecs 2025 10 7 16 59 0 - 3600 :=
  c1_timestamp_normalizer.1 "2025-10-07 16:59:00+01:00" _ _ (by decide)

/-- C2 (confirmed): `choose_interval` computes total minutes by exact
conversion and agrees everywhere with the ordered threshold ladder of
the specification (thresholds 120, 2880, 10080, 20160, 43200 total
minutes, first satisfied threshold winning, daily otherwise); it is
total, and a 90-minute duration selects the 1-minute interval. -/
theorem c2_interval_ladder :
    (∀ d : Int, choose_interval d = spec_interval_ladder d)
  ∧ choose_interval (90 * 60) = "1min" := by
  constructor
  · intro d
    unfold choose_interval spec_interval_ladder
    norm_num
  · unfold choose_interval total_mins
    norm_num [Rat.divInt_eq_div]

/-- C3 (confirmed): on trimmed, lowercased input, every string of the
form integer-then-unit parses to the integer times the unit factor in
seconds (m: 60, h: 3600, d: 86400, w: 604800, y: 365 days); a string
whose final character is not a recognized unit, or whose prefix is not
a valid Python integer, fails with `ValueError` (the ParseError of the
specification). -/
theorem c3_period_grammar :
    (∀ (ns : List Char) (n : Int) (u : Char) (f : Int),
        pyInt ns = some n → unitFactor u = some f →
        parse_period_core (ns ++ [u]) = Except.ok (n * f))
  ∧ (∀ s : String, isTrimmedLower s = true → parse_period s = parse_period_core s.data)
  ∧ (∀ cs : List Char, (∀ u ∈ ['m', 'h', 'd', 'w', 'y'], cs.getLast? ≠ some u) →
        ∃ m, parse_period_core cs = Except.error (PyExc.valueError m))
  ∧ (∀ (ns : List Char) (u : Char) (f : Int), unitFactor u = some f → pyInt ns = none →
        ∃ m, parse_period_core (ns ++ [u]) = Except.error (PyExc.valueError m)) := by
  refine ⟨?_, ?_, ?_, ?_⟩
  · intro ns n u f hpy hu
    unfold unitFactor at hu
    split at hu
    all_goals first
      | (injection hu with hf; subst hf;
         simp [parse_period_core, List.getLast?_concat, unitCase,
           List.dropLast_concat, hpy])
      | cases hu
  · intro s hs
    unfold parse_period
    rw [show pyStripLower s.data = s.data from by
      simpa [isTrimmedLower] using hs]
  · intro cs h
    refine ⟨"Unsupported period: " ++ String.mk cs, ?_⟩
    unfold parse_period_core
    rw [if_neg (h 'm' (by decide)), if_neg (h 'h' (by decide)),
      if_neg (h 'd' (by decide)), if_neg (h 'w' (by decide)),
      if_neg (h 'y' (by decide))]
  · intro ns u f hu hpy
    refine ⟨"invalid literal for int with base 10", ?_⟩
    unfold unitFactor at hu
    split at hu
    all_goals first
      | (cases hu; simp [parse_period_core, List.getLast?_concat, unitCase,
           List.dropLast_concat, hpy])
      | cases hu

/-- Witness for C3: the grammar clauses applied at `90m` (valid), `5x`
(unrecognized unit) and `zzh` (invalid integer prefix). -/
theorem c3_period_grammar_checks :
    parse_period_core ("90".data ++ ['m']) = Except.ok (90 * 60)
  ∧ parse_period "90m" = parse_period_core "90m".data
  ∧ (∃ m, parse_period_core "5x".data = Except.error (PyExc.valueError m))
  ∧ (∃ m, parse_period_core ("zz".data ++ ['h']) = Except.error (PyExc.valueError m)) :=
  ⟨c3_period_grammar.1 "90".data 90 'm' 60 (by decide) rfl,
   c3_period_grammar.2.1 "90m" (by decide),
   c3_period_grammar.2.2.1 "5x".data (by decide),
   c3_period_grammar.2.2.2 "zz".data 'h' 3600 rfl (by decide)⟩

/-- C4 (confirmed): on a series sorted ascending by time, the Window
Filter keeps exactly the bars with time at least the cutoff, as a
sublist of the input (original order, input untouched — the model is a
pure function on an immutable list), it is idempotent for the same
window, and its output is still sorted. -/
theorem c4_window_filter_exact (cutoff : Int) (rows : List Bar)
    (hs : List.Sorted barLe rows) :
    (∀ b : Bar, b ∈ window_filter cutoff rows ↔ b ∈ rows ∧ cutoff ≤ b.time)
  ∧ List.Sublist (window_filter cutoff rows) rows
  ∧ window_filter cutoff (window_filter cutoff rows) = window_filter cutoff rows
  ∧ List.Sorted barLe (window_filter cutoff rows) := by
  refine ⟨?_, ?_, ?_, ?_⟩
  · intro b
    simp [window_filter, List.mem_filter]
  · exact List.filter_sublist rows
  · unfold window_filter
    rw [List.filter_filter]
    simp
  · exact List.Sorted.filter _ hs

/-- Witness for C4: idempotence of the filter on a concrete two-bar
sorted series. -/
theorem c4_window_filter_exact_witness :
    window_filter 0 (window_filter 0 [demoBarA, demoBarB])
      = window_filter 0 [demoBarA, demoBarB] :=
  (c4_window_filter_exact 0 [demoBarA, demoBarB] (by decide)).2.2.1

/-- C5 counterexample: the window filter applies no upper bound.  With
`now` at noon 2025-10-07 and lookback 1 hour, the single fetched bar at
15:59:00 — a time at/after `now` — still appears in the filtered
result, contradicting the claim that every resulting bar satisfies
`bar time < now`. -/
theorem c5_upper_bound_cex :
    get_stock_data (some "KEY") "1h" c5Resp c5Now = Except.ok ([c5Bar], "1min")
  ∧ c5Now ≤ c5Bar.time := by
  constructor
  · decide
  · decide

/-- C5 (corrected): the half of the claimed window bound that the code
does enforce.  Every bar of a successful `get_stock_data` result
satisfies `cutoff ≤ bar time` with `cutoff = now - duration`; the code
applies no `bar time < now` bound. -/
theorem c5_lower_bound_only (apiKey : Option String) (periodStr : String)
    (resp : List (String × JsonField)) (now : Int) (rows : List Bar) (iv : String)
    (h : get_stock_data apiKey periodStr resp now = Except.ok (rows, iv)) :
    ∀ b ∈ rows, ∃ dur, parse_period periodStr = Except.ok dur ∧ now - dur ≤ b.time := by
  unfold get_stock_data at h
  split at h
  · exact Except.noConfusion h
  · split at h
    · exact Except.noConfusion h
    · rename_i lookback heq
      dsimp only [] at h
      split at h
      · exact Except.noConfusion h
      · rename_i df hdf
        simp only [Except.ok.injEq, Prod.mk.injEq] at h
        obtain ⟨hrows, -⟩ := h
        subst hrows
        intro b hb
        refine ⟨lookback, heq, ?_⟩
        simpa [window_filter, List.mem_filter] using (List.mem_filter.mp hb).2

/-- Witness for the corrected C5: with `now` shortly after the bar, the
bar is in the window and satisfies the lower bound. -/
theorem c5_lower_bound_only_witness :
    ∃ dur, parse_period "1h" = Except.ok dur ∧ c5WitNow - dur ≤ c5Bar.time :=
  c5_lower_bound_only (some "KEY") "1h" c5Resp c5WitNow [c5Bar] "1min"
    (by decide) c5Bar (by decide)

/-- C6 (confirmed): on an HTTP-200 response body, the special top-level
keys are checked in order before the series-key scan: `Note` fails as
the rate-limit error, otherwise `Information` fails as the provider
info error, otherwise `Error Message` fails as the provider error, and
otherwise, when no top-level key starts with `Time Series`, the fetch
fails as the unexpected-response error. -/
theorem c6_special_keys (d : List (String × JsonField)) :
    (hasKey d "Note" = true →
        fetch_intraday d = Except.error
          (PyExc.rateLimited ("Alpha Vantage rate limit: " ++ textOf d "Note")))
  ∧ (hasKey d "Note" = false → hasKey d "Information" = true →
        fetch_intraday d = Except.error
          (PyExc.providerInfo ("Alpha Vantage info: " ++ textOf d "Information")))
  ∧ (hasKey d "Note" = false → hasKey d "Information" = false →
        hasKey d "Error Message" = true →
        fetch_intraday d = Except.error
          (PyExc.providerErr ("Alpha Vantage error: " ++ textOf d "Error Message")))
  ∧ (hasKey d "Note" = false → hasKey d "Information" = false →
        hasKey d "Error Message" = false → findSeriesKey d = none →
        fetch_intraday d = Except.error
          (PyExc.unexpectedResponse "Unexpected response")) := by
  refine ⟨?_, ?_, ?_, ?_⟩
  · intro h1
    simp [fetch_intraday, h1]
  · intro h1 h2
    simp [fetch_intraday, h1, h2]
  · intro h1 h2 h3
    simp [fetch_intraday, h1, h2, h3]
  · intro h1 h2 h3 h4
    simp [fetch_intraday, h1, h2, h3, h4]

/-- Witness for C6: all four branches at concrete one-key responses,
including a `Note` response (rate limited despite HTTP 200). -/
theorem c6_special_keys_witness :
    fetch_intraday noteResp = Except.error
      (PyExc.rateLimited ("Alpha Vantage rate limit: " ++ textOf noteResp "Note"))
  ∧ fetch_intraday infoResp = Except.error
      (PyExc.providerInfo ("Alpha Vantage info: " ++ textOf infoResp "Information"))
  ∧ fetch_intraday errResp = Except.error
      (PyExc.providerErr ("Alpha Vantage error: " ++ textOf errResp "Error Message"))
  ∧ fetch_intraday metaOnlyResp = Except.error
      (PyExc.unexpectedResponse "Unexpected response") :=
  ⟨(c6_special_keys noteResp).1 (by decide),
   (c6_special_keys infoResp).2.1 (by decide) (by decide),
   (c6_special_keys errResp).2.2.1 (by decide) (by decide) (by decide),
   (c6_special_keys metaOnlyResp).2.2.2 (by decide) (by decide) (by decide) (by decide)⟩

/-- On a series whose entries all parse, the record-building loop
succeeds and produces one row per entry, in order, whose time column is
the normalized time of the entry key. -/
theorem buildRows_eval (ts : List (String × Ohlc)) (h : ∀ p ∈ ts, rowParses p = true) :
    ∃ rows, buildRows ts = Except.ok rows
      ∧ rows.map Bar.time = ts.map (fun p => normTime p.1) := by
  induction ts with
  | nil => exact ⟨[], rfl, rfl⟩
  | cons p rest ih =>
    obtain ⟨rows, hok, hmap⟩ := ih (fun q hq => h q (List.mem_cons_of_mem p hq))
    have hp := h p (List.mem_cons_self p rest)
    simp only [rowParses, Bool.and_eq_true, Option.isSome_iff_exists] at hp
    obtain ⟨⟨⟨⟨⟨⟨dt, hdt⟩, o, ho⟩, ohi, hhi⟩, olo, hlo⟩, ocl, hcl⟩, ov, hv⟩ := hp
    have hrow : buildRow p.1 p.2 = Except.ok
        { time := normTime p.1, op := o, hi := ohi, lo := olo, cl := ocl,
          vol := pyTrunc ov } := by
      simp only [buildRow, hdt, ho, hhi, hlo, hcl, hv, pyFloatE, normTime]
      rfl
    refine ⟨Bar.mk (normTime p.1) o ohi olo ocl (pyTrunc ov) :: rows, ?_, ?_⟩
    · simp only [buildRows, hrow, hok]
      rfl
    · simp [hmap]

/-- C7 counterexample: a payload with two distinct timestamp keys — one
bare, one offset-aware — produces two bars carrying the same
(normalized) timestamp, so the resulting series has a duplicate
timestamp. -/
theorem c7_duplicate_cex :
    fetch_intraday c7Resp = Except.ok [c7BarAware, c7BarNaive]
  ∧ c7BarAware.time = c7BarNaive.time
  ∧ "2025-10-07 16:59:00+01:00" ≠ "2025-10-07 15:59:00"
  ∧ ¬ ([c7BarAware, c7BarNaive].map Bar.time).Nodup := by
  refine ⟨by decide, by decide, by decide, by decide⟩

/-- C7 (corrected): a well-formed response whose series object has
N ≥ 1 entries (distinct keys, all parseable) yields a series of exactly
N bars sorted non-decreasingly by time; the bar timestamps are free of
duplicates exactly when the normalized times of the keys are distinct.
(An empty series raises `KeyError` instead — see the C10 theorem — and
distinct keys may normalize to equal times, as the counterexample
shows.) -/
theorem c7_roundtrip_amended (d : List (String × JsonField)) (key : String)
    (ts : List (String × Ohlc))
    (hn : hasKey d "Note" = false) (hi : hasKey d "Information" = false)
    (he : hasKey d "Error Message" = false)
    (hk : findSeriesKey d = some key)
    (hl : lookupField d key = some (JsonField.series ts))
    (hne : ts ≠ []) (hp : ∀ p ∈ ts, rowParses p = true) :
    ∃ rows, fetch_intraday d = Except.ok rows
      ∧ rows.length = ts.length
      ∧ List.Sorted barLe rows
      ∧ ((rows.map Bar.time).Nodup ↔ (ts.map (fun p => normTime p.1)).Nodup) := by
  obtain ⟨rows0, hok, hmap⟩ := buildRows_eval ts hp
  have hlen0 : rows0.length = ts.length := by
    simpa using congrArg List.length hmap
  refine ⟨List.insertionSort barLe rows0, ?_, ?_, ?_, ?_⟩
  · cases hrows0 : rows0 with
    | nil =>
      exact absurd (by simpa [hrows0] using hlen0.symm) (by simpa using hne)
    | cons a l =>
      simp [fetch_intraday, hn, hi, he, hk, hl, hok, hrows0, sortValuesTime]
      rfl
  · simpa using hlen0
  · exact List.sorted_insertionSort barLe rows0
  · rw [← hmap]
    exact ((List.perm_insertionSort barLe rows0).map Bar.time).nodup_iff

/-- Witness for the corrected C7: a concrete two-entry payload with
distinct normalized times round-trips to two bars, sorted, without
duplicates. -/
theorem c7_roundtrip_amended_witness :
    ∃ rows, fetch_intraday c7GoodResp = Except.ok rows
      ∧ rows.length = c7GoodSeries.length
      ∧ List.Sorted barLe rows
      ∧ ((rows.map Bar.time).Nodup ↔
          (c7GoodSeries.map (fun p => normTime p.1)).Nodup) :=
  c7_roundtrip_amended c7GoodResp "Time Series (1min)" c7GoodSeries
    (by decide) (by decide) (by decide) (by decide) (by decide) (by decide)
    (by decide)

/-- C8 (confirmed): for every parsed lookback, the request carries
`outputsize=full` exactly when the lookback exceeds 100 days and
`compact` otherwise; period `10d` (864000 seconds, 14400 minutes)
selects the 30-minute interval and stays compact, while period `150d`
forces the full output size. -/
theorem c8_outputsize :
    (∀ (sym iv apiKey periodStr : String) (dur : Int),
        parse_period periodStr = Except.ok dur →
        (intradayParams sym iv apiKey (use_full_output dur)).lookup "outputsize"
          = some (if 100 * 86400 < dur then "full" else "compact"))
  ∧ parse_period "10d" = Except.ok 864000
  ∧ choose_interval 864000 = "30min"
  ∧ use_full_output 864000 = false
  ∧ parse_period "150d" = Except.ok 12960000
  ∧ use_full_output 12960000 = true := by
  refine ⟨?_, by decide, ?_, by decide, by decide, by decide⟩
  · intro sym iv apiKey periodStr dur _
    have hlk : (intradayParams sym iv apiKey (use_full_output dur)).lookup "outputsize"
        = some (if use_full_output dur then "full" else "compact") := rfl
    rw [hlk, use_full_output]
    by_cases h : 100 * 86400 < dur
    · simp [h]
    · simp [h]
  · unfold choose_interval total_mins
    norm_num [Rat.divInt_eq_div]

/-- Witness for C8: the outputsize clause applied to the parsed `10d`
lookback. -/
theorem c8_outputsize_witness :
    (intradayParams "IBM" "30min" "KEY" (use_full_output 864000)).lookup "outputsize"
      = some (if 100 * 86400 < (864000 : Int) then "full" else "compact") :=
  c8_outputsize.1 "IBM" "30min" "KEY" "10d" 864000 (by decide)

/-- C9 counterexample: a bad period string (`banana`) makes the CLI
exit with code 1, not the claimed code 2, and so does a wrong argument
count (usage error). -/
theorem c9_exit_code_cex :
    main_cli ["app.py", "IBM", "banana"] (get_stock_data (some "KEY") "banana" [] 0)
      = CliExit.code 1
  ∧ main_cli ["app.py"] (get_stock_data (some "KEY") "1h" [] 0) = CliExit.code 1
  ∧ CliExit.code 1 ≠ CliExit.code 2 := by
  refine ⟨by decide, by decide, by decide⟩

/-- C9 (corrected): the CLI exits 1 for usage errors and for every
caught `ValueError` (missing key, bad period) or `RuntimeError` (fetch
failure), and 0 on success — including an empty window, where it only
prints the no-data message. -/
theorem c9_exit_codes (argv : List String)
    (outcome : Except PyExc (List Bar × String)) :
    (argv.length ≠ 3 → main_cli argv outcome = CliExit.code 1)
  ∧ (∀ m, argv.length = 3 → outcome = Except.error (PyExc.valueError m) →
        main_cli argv outcome = CliExit.code 1)
  ∧ (∀ e, argv.length = 3 → outcome = Except.error e → isRuntimeError e = true →
        main_cli argv outcome = CliExit.code 1)
  ∧ (∀ rows iv, argv.length = 3 → outcome = Except.ok (rows, iv) →
        main_cli argv outcome = CliExit.code 0) := by
  refine ⟨?_, ?_, ?_, ?_⟩
  · intro h1
    simp [main_cli, h1]
  · intro m h1 h2
    simp [main_cli, h1, h2, adapterCatches, isValueError]
  · intro e h1 h2 h3
    simp [main_cli, h1, h2, adapterCatches, h3]
  · intro rows iv h1 h2
    simp [main_cli, h1, h2]

/-- Witness for the corrected C9: success with an empty window exits 0;
a caught `ValueError` exits 1. -/
theorem c9_exit_codes_witness :
    main_cli ["app.py", "IBM", "90m"] (Except.ok ([], "1min")) = CliExit.code 0
  ∧ main_cli ["app.py", "IBM", "90m"] (Except.error (PyExc.valueError "boom"))
      = CliExit.code 1 :=
  ⟨(c9_exit_codes ["app.py", "IBM", "90m"] (Except.ok ([], "1min"))).2.2.2
      [] "1min" (by decide) rfl,
   (c9_exit_codes ["app.py", "IBM", "90m"]
      (Except.error (PyExc.valueError "boom"))).2.1 "boom" (by decide) rfl⟩

/-- C10 (confirmed): a well-formed response whose series object is
empty makes both fetchers raise `KeyError: time` (sorting a records
table with no `time` column) instead of returning an empty series or a
documented fetch error, and that exception is not in the
`(ValueError, RuntimeError)` class the adapters catch, so it escapes
their error handling. -/
theorem c10_empty_series_keyerror (d : List (String × JsonField)) (key : String)
    (hn : hasKey d "Note" = false) (hi : hasKey d "Information" = false)
    (he : hasKey d "Error Message" = false)
    (hk : findSeriesKey d = some key)
    (hl : lookupField d key = some (JsonField.series [])) :
    fetch_intraday d = Except.error (PyExc.keyError "time")
  ∧ fetch_daily d = Except.error (PyExc.keyError "time")
  ∧ adapterCatches (PyExc.keyError "time") = false := by
  refine ⟨?_, ?_, rfl⟩
  · simp [fetch_intraday, hn, hi, he, hk, hl, buildRows, sortValuesTime]
    rfl
  · simp [fetch_daily, hn, hi, he, hk, hl, buildRowsDaily, sortValuesTime]
    rfl

/-- Witness for C10: the concrete empty-series response. -/
theorem c10_empty_series_keyerror_witness :
    fetch_intraday emptySeriesResp = Except.error (PyExc.keyError "time")
  ∧ fetch_daily emptySeriesResp = Except.error (PyExc.keyError "time") :=
  ⟨(c10_empty_series_keyerror emptySeriesResp "Time Series (5min)" (by decide)
      (by decide) (by decide) (by decide) (by decide)).1,
   (c10_empty_series_keyerror emptySeriesResp "Time Series (5min)" (by decide)
      (by decide) (by decide) (by decide) (by decide)).2.1⟩

end StockData
